import Mathlib

/-!
Verification of the dental-atlas intake tool (`src/atlas_app.py`).

The program's core is `generate_usid`, a pure function building a specimen
identifier from four form strings and a row count, together with the
Streamlit submission flow: read the current sheet row count (falling back to
1 on a read failure), validate the FDI code, resolve media links (with the
sentinels "Upload Failed" / "No Image" / "No File"), and append exactly one
row to the sheet.  Machine integers do not overflow here (row counts are
Python ints), so counts are modelled as `Nat`.
-/

namespace DentalAtlas

/-- One decimal digit as a character, `d ↦ '0' + d` for `d < 10`. -/
def digitChar (d : Nat) : Char := Char.ofNat (48 + d)

/-- Little-endian decimal digits of `n`, driven by explicit fuel so that the
recursion is structural.  For `n < 10` it is the single digit `n`. -/
def toDigitsRev (fuel : Nat) (n : Nat) : List Char :=
  match fuel with
  | 0 => []
  | fuel + 1 =>
    if n < 10 then [digitChar n]
    else digitChar (n % 10) :: toDigitsRev fuel (n / 10)

/-- Python `str(n)` for a non-negative integer `n`: its decimal
representation, most significant digit first.  Fuel `n + 1` always
suffices since the argument strictly shrinks by division by 10. -/
def decimalRepr (n : Nat) : String := String.mk (toDigitsRev (n + 1) n).reverse

/-- Python format specifier `{n:03d}` for non-negative `n`: the decimal
representation, left-padded with the character `0` to a minimum width of 3;
wider representations are kept in full, never truncated. -/
def format03d (n : Nat) : String :=
  let s := decimalRepr n
  if s.length < 3 then String.mk (List.replicate (3 - s.length) '0' ++ s.data) else s

/-- `d_code` from `generate_usid` (src/atlas_app.py:152):
`"P" if dentition == "Permanent" else "D"`. -/
def d_code (dentition : String) : String := if dentition = "Permanent" then "P" else "D"

/-- `a_code` from `generate_usid` (src/atlas_app.py:153):
`"Mx" if arch == "Maxillary" else "Md"`. -/
def a_code (arch : String) : String := if arch = "Maxillary" then "Mx" else "Md"

/-- `s_code` from `generate_usid` (src/atlas_app.py:154):
`"R" if side == "Right" else "L"`. -/
def s_code (side : String) : String := if side = "Right" then "R" else "L"

/-- `generate_usid` (src/atlas_app.py:150-155): the f-string
`f"{fdi_code}-{d_code}-{a_code}-{s_code}-{count:03d}"`. -/
def generate_usid (fdi_code dentition arch side : String) (count : Nat) : String :=
  fdi_code ++ "-" ++ d_code dentition ++ "-" ++ a_code arch ++ "-" ++ s_code side
    ++ "-" ++ format03d count

/-- The spec's wording of the trailing field, "sequenceCount zero-padded to
3 digits": prepend as many `0` characters as the decimal representation
lacks to reach 3 digits. -/
def specPadded3 (n : Nat) : String :=
  String.mk (List.replicate (3 - (decimalRepr n).length) '0' ++ (decimalRepr n).data)

theorem format03d_eq_specPadded3 (n : Nat) : format03d n = specPadded3 n := by
  unfold format03d specPadded3
  by_cases h : (decimalRepr n).length < 3
  · simp [h]
  · simp [h, Nat.sub_eq_zero_of_le (Nat.le_of_not_lt h)]

/-- C1: `generate_usid` returns exactly the dash-separated five-component
layout `<fdiCode>-<dentitionCode>-<archCode>-<sideCode>-<sequenceCount
zero-padded to 3 digits>`, for every input; in particular
`generate_usid "75" "Deciduous" "Mandibular" "Left" 42 = "75-D-Md-L-042"`
and `generate_usid "36" "Permanent" "Mandibular" "Left" 7 = "36-P-Md-L-007"`. -/
theorem generate_usid_layout :
    (∀ (fdi dent arch side : String) (n : Nat),
      generate_usid fdi dent arch side n =
        fdi ++ "-" ++ d_code dent ++ "-" ++ a_code arch ++ "-" ++ s_code side
          ++ "-" ++ specPadded3 n) ∧
    generate_usid "75" "Deciduous" "Mandibular" "Left" 42 = "75-D-Md-L-042" ∧
    generate_usid "36" "Permanent" "Mandibular" "Left" 7 = "36-P-Md-L-007" := by
  refine ⟨fun fdi dent arch side n => ?_, by decide, by decide⟩
  rw [generate_usid, format03d_eq_specPadded3]

/-- C2: the dentition component of the result is `"P"` exactly when the
dentition string is `"Permanent"` and `"D"` for any other string; the arch
component is `"Mx"` exactly when the arch string is `"Maxillary"` and
`"Md"` otherwise; the side component is `"R"` exactly when the side string
is `"Right"` and `"L"` otherwise — and these are precisely the components
`generate_usid` splices into its output. -/
theorem code_mapping_totality :
    (∀ dent : String, (d_code dent = "P" ↔ dent = "Permanent") ∧
      (dent ≠ "Permanent" → d_code dent = "D")) ∧
    (∀ arch : String, (a_code arch = "Mx" ↔ arch = "Maxillary") ∧
      (arch ≠ "Maxillary" → a_code arch = "Md")) ∧
    (∀ side : String, (s_code side = "R" ↔ side = "Right") ∧
      (side ≠ "Right" → s_code side = "L")) ∧
    (∀ (fdi dent arch side : String) (n : Nat),
      generate_usid fdi dent arch side n =
        fdi ++ "-" ++ d_code dent ++ "-" ++ a_code arch ++ "-" ++ s_code side
          ++ "-" ++ format03d n) := by
  refine ⟨fun dent => ?_, fun arch => ?_, fun side => ?_, fun _ _ _ _ _ => rfl⟩
  · unfold d_code
    by_cases h : dent = "Permanent" <;> simp [h]
  · unfold a_code
    by_cases h : arch = "Maxillary" <;> simp [h]
  · unfold s_code
    by_cases h : side = "Right" <;> simp [h]

/-- Witness for C2 at concrete inputs: an unrecognized dentition, arch and
side all take the else branch. -/
theorem code_mapping_totality_witness :
    d_code "Mixed" = "D" ∧ a_code "Palatal" = "Md" ∧ s_code "Center" = "L" :=
  ⟨(code_mapping_totality.1 "Mixed").2 (by decide),
   (code_mapping_totality.2.1 "Palatal").2 (by decide),
   (code_mapping_totality.2.2.1 "Center").2 (by decide)⟩

/-- C3: `generate_usid` is deterministic — two calls whose five arguments
are pairwise equal return equal identifier strings; in particular two
submissions that read the same row count and carry the same identity
fields compute the same (colliding) identifier. -/
theorem generate_usid_deterministic (fdi dent arch side : String) (n : Nat)
    (fdi' dent' arch' side' : String) (n' : Nat)
    (h1 : fdi = fdi') (h2 : dent = dent') (h3 : arch = arch')
    (h4 : side = side') (h5 : n = n') :
    generate_usid fdi dent arch side n = generate_usid fdi' dent' arch' side' n' := by
  rw [h1, h2, h3, h4, h5]

/-- Witness for C3: two submissions that both read row count 5 with the
same identity fields produce the same identifier. -/
theorem generate_usid_deterministic_witness :
    generate_usid "36" "Permanent" "Mandibular" "Left" 5 =
      generate_usid "36" "Permanent" "Mandibular" "Left" 5 :=
  generate_usid_deterministic "36" "Permanent" "Mandibular" "Left" 5
    "36" "Permanent" "Mandibular" "Left" 5 rfl rfl rfl rfl rfl

/-- C5: `generate_usid` is total over its declared input domain — for every
four strings (unrecognized enum-like values included, which take the else
branches) and every non-negative count it returns a string; as a pure Lean
function it has no side effects and no failure mode.  The concrete clause
shows all three else branches taken at once. -/
theorem generate_usid_total :
    (∀ (fdi dent arch side : String) (n : Nat),
      ∃ out : String, generate_usid fdi dent arch side n = out) ∧
    generate_usid "11" "Bogus1" "Bogus2" "Bogus3" 0 = "11-D-Md-L-000" := by
  exact ⟨fun fdi dent arch side n => ⟨_, rfl⟩, by decide⟩

/-! ### The format invariant (regex `^\w{2}-[PD]-(Mx|Md)-[RL]-\d{3}$`) -/

/-- A regex word character `\w` (ASCII): letter, digit or underscore. -/
def isWordChar (c : Char) : Bool := c.isAlphanum || c == '_'

/-- The trailing `\d{3}$` of the format regex: exactly three digit characters. -/
def matchTail3 : List Char → Bool
  | [a, b, c] => a.isDigit && b.isDigit && c.isDigit
  | _ => false

/-- The full format regex `^\w{2}-[PD]-(Mx|Md)-[RL]-\d{3}$` as a matcher on
the character list of a candidate identifier. -/
def usidFormatList : List Char → Bool
  | a :: b :: h1 :: p :: h2 :: m :: x :: h3 :: sd :: h4 :: rest =>
      isWordChar a && isWordChar b && (h1 == '-') && (p == 'P' || p == 'D') &&
      (h2 == '-') && (m == 'M') && (x == 'x' || x == 'd') && (h3 == '-') &&
      (sd == 'R' || sd == 'L') && (h4 == '-') && matchTail3 rest
  | _ => false

/-- Whether a string matches the spec's format regex
`^\w{2}-[PD]-(Mx|Md)-[RL]-\d{3}$`. -/
def matchesUsidFormat (s : String) : Bool := usidFormatList s.data

theorem data_mk (l : List Char) : (String.mk l).data = l := rfl

set_option maxRecDepth 100000 in
theorem format03d_three_digits : ∀ n < 1000, matchTail3 (format03d n).data = true := by
  decide

theorem usidFormatList_of_parts (a b dc xc sc : Char) (tail : List Char)
    (ha : isWordChar a = true) (hb : isWordChar b = true)
    (hd : dc = 'P' ∨ dc = 'D') (hx : xc = 'x' ∨ xc = 'd')
    (hs : sc = 'R' ∨ sc = 'L') (ht : matchTail3 tail = true) :
    usidFormatList (a :: b :: '-' :: dc :: '-' :: 'M' :: xc :: '-' :: sc :: '-' :: tail)
      = true := by
  rcases hd with hd | hd <;> rcases hx with hx | hx <;> rcases hs with hs | hs <;>
    simp [usidFormatList, ha, hb, hd, hx, hs, ht]

theorem toDigitsRev_length :
    ∀ (fuel n k : Nat), 10 ^ k ≤ n → n ≤ fuel → k + 1 ≤ (toDigitsRev fuel n).length := by
  intro fuel
  induction fuel with
  | zero =>
    intro n k hk hn
    have := pow_pos (show 0 < 10 by norm_num) k
    omega
  | succ f ih =>
    intro n k hk hn
    unfold toDigitsRev
    by_cases h10 : n < 10
    · have hk0 : k = 0 := by
        by_contra h
        have h1 : 1 ≤ k := Nat.one_le_iff_ne_zero.mpr h
        have : 10 ^ 1 ≤ 10 ^ k := Nat.pow_le_pow_right (by norm_num) h1
        simp [pow_one] at this
        omega
      simp [h10, hk0]
    · simp only [h10, if_false, List.length_cons]
      cases k with
      | zero => omega
      | succ j =>
        have h1 : 10 ^ j ≤ n / 10 := by
          rw [Nat.le_div_iff_mul_le (by norm_num : 0 < 10)]
          calc 10 ^ j * 10 = 10 ^ (j + 1) := (pow_succ 10 j).symm
            _ ≤ n := hk
        have h2 : n / 10 ≤ f := by
          have hlt : n / 10 < n := Nat.div_lt_self (by omega) (by norm_num)
          omega
        have := ih (n / 10) j h1 h2
        omega

theorem decimalRepr_length (n k : Nat) (h : 10 ^ k ≤ n) :
    k + 1 ≤ (decimalRepr n).length := by
  have := toDigitsRev_length (n + 1) n k h (Nat.le_succ n)
  simpa [decimalRepr, String.length] using this

theorem format03d_eq_decimalRepr_of_ge (n : Nat) (h : 1000 ≤ n) :
    format03d n = decimalRepr n := by
  have h3 : 10 ^ 3 ≤ n := by norm_num; omega
  have hlen : 4 ≤ (decimalRepr n).length := decimalRepr_length n 3 h3
  unfold format03d
  simp only []
  rw [if_neg (by omega)]

/-- Counterexample to C4 as stated: `"!!"` has length 2 and the sequence
count 5 lies in `[0, 999]`, yet the generated identifier fails the format
regex, because `!` is not a word character. -/
theorem usid_format_counterexample :
    ("!!" : String).length = 2 ∧ 5 ≤ 999 ∧
    matchesUsidFormat (generate_usid "!!" "Permanent" "Maxillary" "Right" 5) = false := by
  decide

/-- C4 (amended): for every fdiCode of length 2 both of whose characters
are word characters, and every sequenceCount in `[0, 999]`, the output of
`generate_usid` matches `^\w{2}-[PD]-(Mx|Md)-[RL]-\d{3}$`; for every
sequenceCount `≥ 1000` the trailing numeric field is the full decimal
representation, not truncated, e.g.
`generate_usid "48" "Permanent" "Mandibular" "Right" 1205 = "48-P-Md-R-1205"`. -/
theorem usid_format_invariant :
    (∀ (a b : Char), isWordChar a = true → isWordChar b = true →
      ∀ (dent arch side : String) (n : Nat), n ≤ 999 →
        matchesUsidFormat (generate_usid (String.mk [a, b]) dent arch side n) = true) ∧
    (∀ (fdi dent arch side : String) (n : Nat), 1000 ≤ n →
      generate_usid fdi dent arch side n =
        fdi ++ "-" ++ d_code dent ++ "-" ++ a_code arch ++ "-" ++ s_code side
          ++ "-" ++ decimalRepr n) ∧
    generate_usid "48" "Permanent" "Mandibular" "Right" 1205 = "48-P-Md-R-1205" := by
  refine ⟨?_, ?_, by decide⟩
  · intro a b ha hb dent arch side n hn
    have ht : matchTail3 (format03d n).data = true := format03d_three_digits n (by omega)
    have hdata : (generate_usid (String.mk [a, b]) dent arch side n).data =
        a :: b :: '-' :: (d_code dent).data ++ '-' ::
          ((a_code arch).data ++ '-' :: (s_code side).data ++ '-' :: (format03d n).data) := by
      simp [generate_usid, data_mk]
    unfold matchesUsidFormat
    rw [hdata]
    unfold d_code a_code s_code
    by_cases h1 : dent = "Permanent" <;> by_cases h2 : arch = "Maxillary" <;>
      by_cases h3 : side = "Right" <;>
      simp only [h1, h2, h3, if_true, if_false, ite_true, ite_false] <;>
      exact usidFormatList_of_parts a b _ _ _ _ ha hb (by simp) (by simp) (by simp) ht
  · intro fdi dent arch side n hn
    rw [generate_usid, format03d_eq_decimalRepr_of_ge n hn]

/-- Witness for C4 (amended) at concrete inputs: fdiCode `"48"` built from
the word characters `4` and `8` with count 5 matches the regex, and a count
of 2500 yields its full decimal representation as trailing field. -/
theorem usid_format_invariant_witness :
    matchesUsidFormat (generate_usid (String.mk ['4', '8']) "Permanent" "Maxillary" "Right" 5)
      = true ∧
    generate_usid "11" "Permanent" "Maxillary" "Right" 2500 =
      "11" ++ "-" ++ d_code "Permanent" ++ "-" ++ a_code "Maxillary" ++ "-" ++ s_code "Right"
        ++ "-" ++ decimalRepr 2500 :=
  ⟨usid_format_invariant.1 '4' '8' (by decide) (by decide)
      "Permanent" "Maxillary" "Right" 5 (by decide),
   usid_format_invariant.2.1 "11" "Permanent" "Maxillary" "Right" 2500 (by decide)⟩

/-! ### The submission flow (src/atlas_app.py:340-419)

The Streamlit script reruns top to bottom on every interaction: the row
count read at lines 340-344 is re-executed by the rerun that handles the
submit click, so the count used for the persisted identifier is a fresh
read, not the one behind the preview the user last saw. -/

/-- A spreadsheet row as returned by `sheet.get_all_values()`: a list of
cell strings.  A header row, when present, is just another row. -/
abbrev Row := List String

/-- Python `str.strip()` on ASCII whitespace: drop whitespace characters
from both ends.  Structural, unlike `String.trim`, so proofs can evaluate
it. -/
def pyStrip (s : String) : String :=
  String.mk (((s.data.dropWhile Char.isWhitespace).reverse.dropWhile Char.isWhitespace).reverse)

/-- Lines 340-344: `count = len(sheet.get_all_values())` guarded by a bare
`except` that silently falls back to `count = 1`.  The read outcome is
`some rows` on success and `none` when the read raises. -/
def readCount (readResult : Option (List Row)) : Nat :=
  match readResult with
  | some rows => rows.length
  | none => 1

/-- Lines 346-350: the ID preview.  `if fdi_code:` shows a generated
identifier only when the field is non-empty (its length is not checked
here). -/
def previewUsid (readResult : Option (List Row)) (fdi_code dentition arch side : String) :
    Option String :=
  if fdi_code ≠ "" then
    some (generate_usid fdi_code dentition arch side (readCount readResult))
  else none

/-- The outcome of the Drive API call inside `upload_to_drive`
(lines 126-148): either the created file's `webViewLink`, or an exception
raised somewhere in the `try` block. -/
inductive DriveResult where
  | ok (webViewLink : String)
  | error
deriving DecidableEq

/-- `upload_to_drive` (lines 126-148): returns the link on success; every
exception is caught and the sentinel `"Upload Failed"` is returned, so the
caller never sees a raise. -/
def upload_to_drive (result : DriveResult) : String :=
  match result with
  | .ok link => link
  | .error => "Upload Failed"

/-- Lines 366-374: the image field starts as `"No Image"`; an uploaded
file (modelled as `some r` with `r` its Drive outcome) replaces it with
the upload result; otherwise a non-blank pasted link is used, stripped. -/
def resolveImgLink (uploadedImage : Option DriveResult) (image_link : String) : String :=
  match uploadedImage with
  | some r => upload_to_drive r
  | none => if pyStrip image_link ≠ "" then pyStrip image_link else "No Image"

/-- Lines 377-385: the CBCT field, same shape with sentinel `"No File"`. -/
def resolveDicomLink (uploadedDicom : Option DriveResult) (dicom_link_input : String) : String :=
  match uploadedDicom with
  | some r => upload_to_drive r
  | none => if pyStrip dicom_link_input ≠ "" then pyStrip dicom_link_input else "No File"

/-- The form fields read by the submit handler.  The two measurements are
floats in the source; they are carried verbatim into the row and never
inspected, so they are modelled as opaque cell strings. -/
structure FormInput where
  collector : String
  source : String
  patient_gender : String
  medical_history : String
  dentition : String
  arch : String
  side : String
  tooth_class : String
  fdi_code : String
  crown_h : String
  root_l : String
  image_link : String
  dicom_link_input : String
deriving DecidableEq

/-- The visible outcome of a submit click (lines 355-419). -/
inductive SubmitOutcome where
  | validationError
  | saved (usid : String)
  | saveError
deriving DecidableEq

/-- Lines 388-404: the `new_row` list appended to the sheet. -/
def new_row (inp : FormInput) (final_usid img_link dicom_link today : String) : Row :=
  [final_usid, inp.collector, today, inp.source, inp.patient_gender,
   if pyStrip inp.medical_history ≠ "" then inp.medical_history else "None",
   inp.dentition, inp.arch, inp.side, inp.tooth_class, inp.fdi_code,
   inp.crown_h, inp.root_l, img_link, dicom_link]

/-- Lines 355-419: the submit handler.  `readResult` is the sheet read
performed by this same script rerun (lines 340-344); `appendOk` is whether
`sheet.append_row` succeeds (`false` models the exception caught at line
417, which leaves the sheet unchanged).  Returns the resulting sheet
contents and the outcome shown to the user. -/
def submitStep (sheetRows : List Row) (readResult : Option (List Row)) (inp : FormInput)
    (uploadedImage uploadedDicom : Option DriveResult) (appendOk : Bool) (today : String) :
    List Row × SubmitOutcome :=
  if inp.fdi_code = "" ∨ inp.fdi_code.length ≠ 2 then
    (sheetRows, .validationError)
  else
    let final_usid :=
      generate_usid inp.fdi_code inp.dentition inp.arch inp.side (readCount readResult)
    let r := new_row inp final_usid (resolveImgLink uploadedImage inp.image_link)
      (resolveDicomLink uploadedDicom inp.dicom_link_input) today
    if appendOk then (sheetRows ++ [r], .saved final_usid)
    else (sheetRows, .saveError)

/-- A concrete valid form filling, used by witnesses. -/
def sampleInput : FormInput :=
  ⟨"Dr. Doaa", "University Hospital", "Male", "", "Permanent", "Mandibular", "Left",
   "Molar", "36", "7.5", "12.0", "", ""⟩

/-- A concrete form filling with a 1-character FDI code. -/
def sampleShortFdi : FormInput :=
  ⟨"Dr. Doaa", "University Hospital", "Male", "", "Permanent", "Mandibular", "Left",
   "Molar", "7", "7.5", "12.0", "", ""⟩

theorem new_row_cell13 (inp : FormInput) (u il dl today : String) :
    (new_row inp u il dl today)[13]? = some il := rfl

theorem new_row_cell14 (inp : FormInput) (u il dl today : String) :
    (new_row inp u il dl today)[14]? = some dl := rfl

theorem valid_fdi_not_rejected {inp : FormInput} (hlen : inp.fdi_code.length = 2) :
    ¬(inp.fdi_code = "" ∨ inp.fdi_code.length ≠ 2) := by
  rintro (h | h)
  · rw [h] at hlen
    exact absurd hlen (by decide)
  · exact h hlen

/-- C6: the sequence count is the number of rows currently in the sheet,
header included, read by the same script rerun immediately before
generation; the submit rerun recomputes it rather than reusing the
preview's value, so an execution where a row lands in between shows one
identifier in the preview and persists another. -/
theorem sequence_count_recomputed :
    (∀ rows : List Row, readCount (some rows) = rows.length) ∧
    (∀ (rows : List Row) (rr : Option (List Row)) (inp : FormInput)
        (ui ud : Option DriveResult) (today : String), inp.fdi_code.length = 2 →
      (submitStep rows rr inp ui ud true today).2 =
        SubmitOutcome.saved (generate_usid inp.fdi_code inp.dentition inp.arch inp.side
          (readCount rr))) ∧
    (previewUsid (some [[]]) "36" "Permanent" "Mandibular" "Left" = some "36-P-Md-L-001" ∧
      (submitStep [[], []] (some [[], []]) sampleInput none none true "2026-10-12").2 =
        SubmitOutcome.saved "36-P-Md-L-002" ∧
      ("36-P-Md-L-001" : String) ≠ "36-P-Md-L-002") := by
  refine ⟨fun rows => rfl, ?_, by decide, by decide, by decide⟩
  intro rows rr inp ui ud today hlen
  unfold submitStep
  rw [if_neg (valid_fdi_not_rejected hlen)]
  rfl

/-- Witness for C6: a valid submission whose rerun read fails (so the
fallback count 1 is what gets persisted). -/
theorem sequence_count_recomputed_witness :
    (submitStep [] none sampleInput none none true "2026-10-12").2 =
      SubmitOutcome.saved (generate_usid sampleInput.fdi_code sampleInput.dentition
        sampleInput.arch sampleInput.side (readCount none)) :=
  sequence_count_recomputed.2.1 [] none sampleInput none none "2026-10-12" (by decide)

/-- C7: a failed media upload does not abort the submission — the row is
still appended, with `"Upload Failed"` substituted in the failed media
field; when a media slot is absent and no link was pasted the sentinels
`"No Image"` / `"No File"` are used instead. -/
theorem upload_failure_not_aborting :
    (∀ (rows : List Row) (rr : Option (List Row)) (inp : FormInput)
        (ud : Option DriveResult) (today : String), inp.fdi_code.length = 2 →
      ∃ r : Row, (submitStep rows rr inp (some DriveResult.error) ud true today).1 =
          rows ++ [r] ∧ r[13]? = some "Upload Failed") ∧
    (∀ (rows : List Row) (rr : Option (List Row)) (inp : FormInput)
        (ui : Option DriveResult) (today : String), inp.fdi_code.length = 2 →
      ∃ r : Row, (submitStep rows rr inp ui (some DriveResult.error) true today).1 =
          rows ++ [r] ∧ r[14]? = some "Upload Failed") ∧
    (∀ (rows : List Row) (rr : Option (List Row)) (inp : FormInput) (today : String),
        inp.fdi_code.length = 2 →
        pyStrip inp.image_link = "" → pyStrip inp.dicom_link_input = "" →
      ∃ r : Row, (submitStep rows rr inp none none true today).1 = rows ++ [r] ∧
        r[13]? = some "No Image" ∧ r[14]? = some "No File") := by
  refine ⟨?_, ?_, ?_⟩
  · intro rows rr inp ud today hlen
    refine ⟨new_row inp
      (generate_usid inp.fdi_code inp.dentition inp.arch inp.side (readCount rr))
      (resolveImgLink (some DriveResult.error) inp.image_link)
      (resolveDicomLink ud inp.dicom_link_input) today, ?_, rfl⟩
    unfold submitStep
    rw [if_neg (valid_fdi_not_rejected hlen)]
    rfl
  · intro rows rr inp ui today hlen
    refine ⟨new_row inp
      (generate_usid inp.fdi_code inp.dentition inp.arch inp.side (readCount rr))
      (resolveImgLink ui inp.image_link)
      (resolveDicomLink (some DriveResult.error) inp.dicom_link_input) today, ?_, rfl⟩
    unfold submitStep
    rw [if_neg (valid_fdi_not_rejected hlen)]
    rfl
  · intro rows rr inp today hlen hImg hDic
    have h13 : resolveImgLink none inp.image_link = "No Image" := by
      unfold resolveImgLink
      rw [hImg]
      simp
    have h14 : resolveDicomLink none inp.dicom_link_input = "No File" := by
      unfold resolveDicomLink
      rw [hDic]
      simp
    refine ⟨new_row inp
      (generate_usid inp.fdi_code inp.dentition inp.arch inp.side (readCount rr))
      (resolveImgLink none inp.image_link)
      (resolveDicomLink none inp.dicom_link_input) today, ?_, ?_, ?_⟩
    · unfold submitStep
      rw [if_neg (valid_fdi_not_rejected hlen)]
      rfl
    · rw [new_row_cell13, h13]
    · rw [new_row_cell14, h14]

/-- Witness for C7: a valid submission whose image upload fails still
appends a row carrying the `"Upload Failed"` sentinel. -/
theorem upload_failure_not_aborting_witness :
    ∃ r : Row, (submitStep [] none sampleInput (some DriveResult.error) none true
        "2026-10-12").1 = [] ++ [r] ∧ r[13]? = some "Upload Failed" :=
  upload_failure_not_aborting.1 [] none sampleInput none "2026-10-12" (by decide)

/-- C8: an empty FDI code, or one whose length is not exactly 2, is
rejected up front — the sheet is left untouched, the outcome is the
validation error, and the handler never reaches identifier generation or
the append (the result carries no identifier, for any upload outcomes and
any append behaviour). -/
theorem submit_rejects_invalid_fdi (rows : List Row) (rr : Option (List Row))
    (inp : FormInput) (ui ud : Option DriveResult) (ok : Bool) (today : String)
    (h : inp.fdi_code = "" ∨ inp.fdi_code.length ≠ 2) :
    submitStep rows rr inp ui ud ok today = (rows, SubmitOutcome.validationError) := by
  unfold submitStep
  rw [if_pos h]

/-- Witness for C8: a 1-character FDI code is rejected and appends nothing. -/
theorem submit_rejects_invalid_fdi_witness :
    submitStep [] none sampleShortFdi none none true "2026-10-12" =
      ([], SubmitOutcome.validationError) :=
  submit_rejects_invalid_fdi [] none sampleShortFdi none none true "2026-10-12"
    (Or.inr (by decide))

/-- C9: the sheet is append-only under this program — every submission
leaves it unchanged or appends exactly one row at the end; in either case
the existing rows survive unmodified as the prefix of the result. -/
theorem append_only_store (rows : List Row) (rr : Option (List Row)) (inp : FormInput)
    (ui ud : Option DriveResult) (ok : Bool) (today : String) :
    (submitStep rows rr inp ui ud ok today).1.take rows.length = rows ∧
    ((submitStep rows rr inp ui ud ok today).1 = rows ∨
      ∃ r : Row, (submitStep rows rr inp ui ud ok today).1 = rows ++ [r]) := by
  unfold submitStep
  by_cases hv : inp.fdi_code = "" ∨ inp.fdi_code.length ≠ 2
  · rw [if_pos hv]
    exact ⟨List.take_length rows, Or.inl rfl⟩
  · rw [if_neg hv]
    cases ok
    · exact ⟨List.take_length rows, Or.inl rfl⟩
    · exact ⟨List.take_left rows _, Or.inr ⟨_, rfl⟩⟩

/-- C10: when the sheet read raises, the bare `except` silently falls back
to the constant count 1 — not 0 and not an error — and both the preview
and the persisted identifier are generated with sequence count 1 whatever
the sheet's actual size. -/
theorem read_failure_fallback :
    readCount none = 1 ∧ readCount none ≠ 0 ∧
    (∀ fdi dent arch side : String, fdi ≠ "" →
      previewUsid none fdi dent arch side = some (generate_usid fdi dent arch side 1)) ∧
    (∀ (rows : List Row) (inp : FormInput) (ui ud : Option DriveResult) (today : String),
        inp.fdi_code.length = 2 →
      (submitStep rows none inp ui ud true today).2 =
        SubmitOutcome.saved (generate_usid inp.fdi_code inp.dentition inp.arch inp.side 1)) := by
  refine ⟨rfl, by decide, ?_, ?_⟩
  · intro fdi dent arch side h
    unfold previewUsid
    rw [if_pos h]
    rfl
  · intro rows inp ui ud today hlen
    unfold submitStep
    rw [if_neg (valid_fdi_not_rejected hlen)]
    rfl

/-- Witness for C10: with a failed read, the preview and a valid
submission both use sequence count 1. -/
theorem read_failure_fallback_witness :
    previewUsid none "48" "Permanent" "Maxillary" "Right" =
      some (generate_usid "48" "Permanent" "Maxillary" "Right" 1) ∧
    (submitStep [[], [], []] none sampleInput none none true "2026-10-12").2 =
      SubmitOutcome.saved (generate_usid sampleInput.fdi_code sampleInput.dentition
        sampleInput.arch sampleInput.side 1) :=
  ⟨read_failure_fallback.2.2.1 "48" "Permanent" "Maxillary" "Right" (by decide),
   read_failure_fallback.2.2.2 [[], [], []] sampleInput none none "2026-10-12" (by decide)⟩

end DentalAtlas
